import Mathlib

/-!
Verification of the tv-show-reco recommendation pipeline (src/agent.ts).

Shallow embedding conventions:
* JavaScript strings are modelled as lists of characters (JStr); the
  string length of the model is the JS length for the characters used here.
* JSON numbers (year, rating) are modelled as rationals; the bound
  currentYear (read by the code from the clock) is a parameter.
* The LLM gateway is external: the handler model receives the already
  JSON-decoded payload of the gateway response as an argument, together
  with the optional usage entry of the flow.  Inputs whose raw text is not
  valid JSON, or whose JSON does not have the payload shape, are rejected
  by the same thrown error as every schema violation (agent.ts lines
  368-373), so they are not distinguished here.
* Thrown errors become an Except value; PipelineError.parseFailure is the
  error thrown at agent.ts line 369 and PipelineError.emptyResult the one
  thrown at line 239.
-/

set_option maxRecDepth 100000

namespace TvShowReco

/-- Model of a JavaScript string: a list of characters. -/
abbrev JStr := List Char

/-- Whitespace recognised by the string trim operation (the common JS
whitespace characters that fit the embedding). -/
def jsWhitespace (c : Char) : Bool :=
  c == ' ' || c == '\t' || c == '\n' || c == '\r' || c == '\x0b' || c == '\x0c'

/-- Model of String.prototype.trim: drop whitespace from both ends. -/
def trim (s : JStr) : JStr :=
  ((s.dropWhile jsWhitespace).reverse.dropWhile jsWhitespace).reverse

/-- Metadata part of the Recommendation type (agent.ts lines 15-21). -/
structure RecMetadata where
  year : ℚ
  genres : List JStr
  moods : List JStr
  rating : ℚ
  tone : JStr
deriving DecidableEq

/-- The Recommendation type (agent.ts lines 10-22).  The same shape is
used for the elements parsed out of the LLM JSON and for the normalised
output elements, exactly as in the source. -/
structure Recommendation where
  title : JStr
  synopsis : JStr
  whereToWatch : List JStr
  whyItMadeTheList : JStr
  metadata : RecMetadata
deriving DecidableEq

/-- The JSON-decoded shape of the LLM reply: a top level object with a
recommendations array (agent.ts lines 321-344). -/
structure RawPayload where
  recommendations : List Recommendation
deriving DecidableEq

/-- The normalised filter set (agent.ts lines 24-29). -/
structure NormalisedFilters where
  genre : Option JStr
  mood : Option JStr
  platform : Option JStr
  includeClassics : Bool
deriving DecidableEq

/-- The two failure modes of the post-gateway pipeline: the error thrown
when JSON.parse or the zod schema rejects the reply (agent.ts line 369),
and the error thrown when a parsed reply holds no recommendations
(agent.ts line 239). -/
inductive PipelineError where
  | parseFailure
  | emptyResult
deriving DecidableEq

/-- Usage entry returned by the flow (agent.ts line 214); only the model
name is read by the handler (line 256), never the token counts. -/
structure UsageEntry where
  model : Option JStr
  total_tokens : Nat
deriving DecidableEq

/-- The response envelope assembled by the handler (agent.ts lines
244-260).  The usage object of the HTTP reply has the single field
total_tokens, kept here as usage_total_tokens. -/
structure ResponseEnvelope where
  recommendations : List Recommendation
  totalMatches : Nat
  filtersApplied : NormalisedFilters
  fallbackApplied : Bool
  model : Option JStr
  usage_total_tokens : Nat
deriving DecidableEq

/-- The entrypoint input after zod validation of the request body
(agent.ts lines 87-122): each field optional, count an integer in
[1,10] when present. -/
structure RecommendInput where
  genre : Option JStr
  mood : Option JStr
  platform : Option JStr
  includeClassics : Option Bool
  numberOfRecommendations : Option Nat
deriving DecidableEq

/-- normalize (agent.ts lines 376-381): absent or empty input gives null;
otherwise trim, then lower-case; a blank result gives null. -/
def normalize (value : Option JStr) : Option JStr :=
  match value with
  | none => none
  | some s =>
    if s.isEmpty then none
    else
      let clean := (trim s).map Char.toLower
      if clean.isEmpty then none else some clean

/-- clamp (agent.ts lines 383-385): Math.min(Math.max(value, lo), hi). -/
def clamp (value lo hi : Nat) : Nat :=
  min (max value lo) hi

/-- safeParseInt (agent.ts lines 387-391).  The argument stands for the
result of Number.parseInt on the environment value: none when the value
is unset or does not parse to a finite number. -/
def safeParseInt (value : Option Int) (fallback : Nat) : Nat :=
  match value with
  | none => fallback
  | some parsed => if 0 < parsed then parsed.toNat else fallback

/-- Rounding of the rating (agent.ts line 364):
Number(rating.toFixed(1)).  toFixed(1) picks the integer n making n/10
closest to x, the larger n on a tie, which is the floor of 10x + 1/2. -/
def round10 (x : ℚ) : ℚ :=
  ((⌊x * 10 + 1 / 2⌋ : ℤ) : ℚ) / 10

/-- Normalisation of a string list field (agent.ts lines 352-354 and
358-363): trim every entry, then drop entries that became empty. -/
def normStrList (l : List JStr) : List JStr :=
  (l.map trim).filter (fun entry => !entry.isEmpty)

/-- Normalisation of the tone (agent.ts line 365): trim, and substitute
the word balanced for a blank result. -/
def normalizeTone (tone : JStr) : JStr :=
  let t := trim tone
  if t.isEmpty then "balanced".toList else t

/-- The per-element normalisation step of parseLlmRecommendations
(agent.ts lines 349-367). -/
def normalizeRec (item : Recommendation) : Recommendation where
  title := trim item.title
  synopsis := trim item.synopsis
  whereToWatch := normStrList item.whereToWatch
  whyItMadeTheList := trim item.whyItMadeTheList
  metadata := {
    year := item.metadata.year
    genres := normStrList item.metadata.genres
    moods := normStrList item.metadata.moods
    rating := round10 item.metadata.rating
    tone := normalizeTone item.metadata.tone }

/-- The per-element zod checks of the schema in parseLlmRecommendations
(agent.ts lines 324-340), with currentYear the value of
new Date().getFullYear() at validation time. -/
def validRec (currentYear : ℤ) (r : Recommendation) : Bool :=
  decide (1 ≤ r.title.length) &&
  decide (1 ≤ r.synopsis.length) &&
  r.whereToWatch.all (fun entry => decide (1 ≤ entry.length)) &&
  decide (r.whereToWatch.length ≤ 10) &&
  decide (1 ≤ r.whyItMadeTheList.length) &&
  decide (r.whyItMadeTheList.length ≤ 400) &&
  r.metadata.year.isInt &&
  decide ((1950 : ℚ) ≤ r.metadata.year) &&
  decide (r.metadata.year ≤ ((currentYear + 1 : ℤ) : ℚ)) &&
  r.metadata.genres.all (fun entry => decide (1 ≤ entry.length)) &&
  decide (r.metadata.genres.length ≤ 10) &&
  r.metadata.moods.all (fun entry => decide (1 ≤ entry.length)) &&
  decide (r.metadata.moods.length ≤ 10) &&
  decide ((0 : ℚ) ≤ r.metadata.rating) &&
  decide (r.metadata.rating ≤ (10 : ℚ)) &&
  decide (1 ≤ r.metadata.tone.length) &&
  decide (r.metadata.tone.length ≤ 32)

/-- The whole-payload zod checks (agent.ts lines 321-344): the
recommendations array has between 1 and recommendationCount elements and
every element passes the per-element checks. -/
def schemaOk (currentYear : ℤ) (payload : RawPayload) (recommendationCount : Nat) : Bool :=
  decide (1 ≤ payload.recommendations.length) &&
  decide (payload.recommendations.length ≤ recommendationCount) &&
  payload.recommendations.all (validRec currentYear)

/-- parseLlmRecommendations (agent.ts lines 317-374) after JSON
decoding: reject the whole batch unless the schema holds, otherwise
normalise every element.  Both a JSON.parse failure and a schema.parse
failure throw the single error of line 369, modelled by parseFailure. -/
def parseLlmRecommendations (currentYear : ℤ) (payload : RawPayload)
    (recommendationCount : Nat) : Except PipelineError (List Recommendation) :=
  if schemaOk currentYear payload recommendationCount
  then .ok (payload.recommendations.map normalizeRec)
  else .error .parseFailure

/-- The handler body after the gateway call (agent.ts lines 221-260):
validate the reply, fail with the empty-result error when no
recommendation survived, otherwise assemble the envelope.  The usage
entry only contributes the optional model name (line 256); the
total_tokens of the reply is the recommendation count (lines 257-259). -/
def handlerCore (recommendationCount : Nat) (filters : NormalisedFilters)
    (currentYear : ℤ) (payload : RawPayload) (usageEntry : Option UsageEntry) :
    Except PipelineError ResponseEnvelope :=
  match parseLlmRecommendations currentYear payload recommendationCount with
  | .error e => .error e
  | .ok recommendations =>
    if recommendations.length = 0 then .error .emptyResult
    else .ok {
      recommendations := recommendations.take recommendationCount
      totalMatches := recommendations.length
      filtersApplied := filters
      fallbackApplied := false
      model := usageEntry.bind (fun u => u.model)
      usage_total_tokens := recommendations.length }

/-- The effective recommendation count (agent.ts lines 171-175):
the request value, or the configured default when omitted, clamped
into [1,10]. -/
def effectiveCount (input : RecommendInput) (defaultCount : Nat) : Nat :=
  clamp (input.numberOfRecommendations.getD defaultCount) 1 10

/-- The filter normalisation step of the handler (agent.ts lines
176-181). -/
def filtersOf (input : RecommendInput) : NormalisedFilters where
  genre := normalize input.genre
  mood := normalize input.mood
  platform := normalize input.platform
  includeClassics := input.includeClassics.getD true

/-- The filter summary rendered into the prompt (agent.ts lines
278-283): four template strings joined by comma-space, a null filter
rendered as the word any. -/
def filterSummary (filters : NormalisedFilters) : JStr :=
  List.intercalate (", ".toList) [
    "genre: ".toList ++ filters.genre.getD ("any".toList),
    "mood: ".toList ++ filters.mood.getD ("any".toList),
    "platform: ".toList ++ filters.platform.getD ("any".toList),
    "includeClassics: ".toList ++ (toString filters.includeClassics).toList]

/-- JSON.stringify(schemaPreview, null, 2) for the constant object of
agent.ts lines 285-301. -/
def schemaPreviewJson : JStr :=
  ("\x7b\n  \"recommendations\": [\n    \x7b\n      \"title\": \"Show Title\",\n      \"synopsis\": \"A short synopsis tailored to the viewer.\",\n      \"whereToWatch\": [\n        \"Platform\"\n      ],\n      \"whyItMadeTheList\": \"One punchy sentence referencing the request.\",\n      \"metadata\": \x7b\n        \"year\": 2022,\n        \"genres\": [\n          \"Genre\"\n        ],\n        \"moods\": [\n          \"Mood\"\n        ],\n        \"rating\": 8.5,\n        \"tone\": \"balanced\"\n      \x7d\n    \x7d\n  ]\n\x7d").toList

/-- buildRecommendationPrompt (agent.ts lines 271-315): the fixed
instruction lines joined by blank lines. -/
def buildRecommendationPrompt (filters : NormalisedFilters)
    (recommendationCount : Nat) : JStr :=
  List.intercalate ("\n\n".toList) [
    "You are an expert TV curator helping a viewer.".toList,
    "Filters to respect (normalised): ".toList ++ filterSummary filters ++ ".".toList,
    "Return exactly ".toList ++ (toString recommendationCount).toList
      ++ " compelling TV recommendations when possible (never exceed this number).".toList,
    "Recommendations must be current (no obvious errors) and feel hand-picked for the viewer.".toList,
    "For each title include platforms, relevant genres/moods, and a short \x27why it made the list\x27 blurb.".toList,
    "Keep explanations concise (<= 2 sentences) and connect them directly to the viewer\x27s filters.".toList,
    "Your reply MUST be JSON that matches this TypeScript shape exactly:".toList,
    schemaPreviewJson,
    "If you truly cannot form any recommendation, respond with \x7b\"recommendations\": []\x7d.".toList,
    "Return JSON only with no additional commentary.".toList]

/-- The prompt the handler sends to the gateway (agent.ts lines
196-199): built from the normalised filters and the effective count. -/
def handlerPrompt (input : RecommendInput) (defaultCount : Nat) : JStr :=
  buildRecommendationPrompt (filtersOf input) (effectiveCount input defaultCount)

/-- The handler (agent.ts lines 168-268) with the gateway reply and the
usage entry passed in as data: compute the effective count and the
filters, then run the post-gateway pipeline. -/
def handler (input : RecommendInput) (defaultCount : Nat) (currentYear : ℤ)
    (payload : RawPayload) (usageEntry : Option UsageEntry) :
    Except PipelineError ResponseEnvelope :=
  handlerCore (effectiveCount input defaultCount) (filtersOf input)
    currentYear payload usageEntry

/-! Concrete sample data used by the witness theorems below. -/

/-- A recommendation that passes every schema check in year 2025. -/
def sampleRec : Recommendation where
  title := "The Wire".toList
  synopsis := "A Baltimore crime drama told from many sides.".toList
  whereToWatch := ["HBO Max".toList]
  whyItMadeTheList := "A classic of prestige television.".toList
  metadata := {
    year := (2002 : ℚ)
    genres := ["crime".toList, "drama".toList]
    moods := ["gritty".toList]
    rating := mkRat 93 10
    tone := "gritty".toList }

/-- A gateway reply holding one valid recommendation. -/
def samplePayload : RawPayload := ⟨[sampleRec]⟩

/-- A normalised filter set for the witnesses. -/
def sampleFilters : NormalisedFilters :=
  ⟨some ("crime".toList), none, none, true⟩

/-- The validator output for samplePayload. -/
def sampleRecs : List Recommendation :=
  samplePayload.recommendations.map normalizeRec

/-- The envelope the handler assembles for samplePayload with count 3
and no usage entry. -/
def sampleEnv : ResponseEnvelope where
  recommendations := sampleRecs.take 3
  totalMatches := sampleRecs.length
  filtersApplied := sampleFilters
  fallbackApplied := false
  model := none
  usage_total_tokens := sampleRecs.length

/-- The same envelope when the flow reported a usage entry with a model
name and an unrelated token count. -/
def sampleEnv2 : ResponseEnvelope :=
  { sampleEnv with model := some ("gpt-5-mini".toList) }

/-- A usage entry whose token count differs from the recommendation
count. -/
def sampleUsage : UsageEntry := ⟨some ("gpt-5-mini".toList), 9999⟩

/-- A request input that omits numberOfRecommendations. -/
def sampleInput : RecommendInput := ⟨some ("Drama ".toList), none, none, none, none⟩

/-- The sample recommendation with a year below 1950. -/
def badYearRec : Recommendation :=
  { sampleRec with metadata := { sampleRec.metadata with year := (1949 : ℚ) } }

/-- A gateway reply holding one out-of-range year. -/
def badYearPayload : RawPayload := ⟨[badYearRec]⟩

/-- The sample recommendation with a 401 character explanation. -/
def longWhyRec : Recommendation :=
  { sampleRec with whyItMadeTheList := List.replicate 401 'a' }

/-- A gateway reply holding one over-long explanation. -/
def longWhyPayload : RawPayload := ⟨[longWhyRec]⟩

/-- The sample recommendation with a whitespace-only title: it passes
the schema (length 1 before trimming) and trims to the empty string. -/
def wsTitleRec : Recommendation := { sampleRec with title := [' '] }

/-- A gateway reply holding the whitespace-only title. -/
def wsTitlePayload : RawPayload := ⟨[wsTitleRec]⟩

/-- The reply the prompt documents as the escape hatch of the LLM. -/
def emptyPayload : RawPayload := ⟨[]⟩

deriving instance DecidableEq for Except

/-! Basic facts about dropWhile and trim. -/

lemma dropWhile_dropWhile (p : Char → Bool) (l : JStr) :
    (l.dropWhile p).dropWhile p = l.dropWhile p := by
  induction l with
  | nil => rfl
  | cons a t ih =>
    cases hpa : p a with
    | true => simpa [List.dropWhile_cons, hpa] using ih
    | false => simp [List.dropWhile_cons, hpa]

lemma head?_dropWhile (p : Char → Bool) (l : JStr) :
    ∀ c ∈ (l.dropWhile p).head?, p c = false := by
  induction l with
  | nil => simp
  | cons a t ih =>
    cases hpa : p a with
    | true => simpa [List.dropWhile_cons, hpa] using ih
    | false => simp [List.dropWhile_cons, hpa]

lemma dropWhile_eq_self_of_head? (p : Char → Bool) (l : JStr)
    (h : ∀ c ∈ l.head?, p c = false) : l.dropWhile p = l := by
  cases l with
  | nil => rfl
  | cons a t => simp [List.dropWhile_cons, h a (by simp)]

lemma getLast?_dropWhile (p : Char → Bool) (l : JStr)
    (h : l.dropWhile p ≠ []) : (l.dropWhile p).getLast? = l.getLast? := by
  induction l with
  | nil => simp at h
  | cons a t ih =>
    cases hpa : p a with
    | false => simp [List.dropWhile_cons, hpa]
    | true =>
      rw [List.dropWhile_cons, if_pos hpa] at h ⊢
      rw [ih h]
      cases t with
      | nil => simp [List.dropWhile] at h
      | cons b u => simp [List.getLast?_cons_cons]

lemma trim_head? (s : JStr) :
    ∀ c ∈ (trim s).head?, jsWhitespace c = false := by
  intro c hc
  rw [trim, List.head?_reverse] at hc
  by_cases hb : (s.dropWhile jsWhitespace).reverse.dropWhile jsWhitespace = []
  · rw [hb] at hc
    simp at hc
  · rw [getLast?_dropWhile _ _ hb, List.getLast?_reverse] at hc
    exact head?_dropWhile _ _ c hc

lemma trim_getLast? (s : JStr) :
    ∀ c ∈ (trim s).getLast?, jsWhitespace c = false := by
  intro c hc
  rw [trim, List.getLast?_reverse] at hc
  exact head?_dropWhile _ _ c hc

lemma trim_idem (s : JStr) : trim (trim s) = trim s := by
  have h1 : (trim s).dropWhile jsWhitespace = trim s :=
    dropWhile_eq_self_of_head? _ _ (trim_head? s)
  have h0 : trim (trim s)
      = (((trim s).dropWhile jsWhitespace).reverse.dropWhile jsWhitespace).reverse := rfl
  rw [h0, h1]
  have h2 : (trim s).reverse
      = (s.dropWhile jsWhitespace).reverse.dropWhile jsWhitespace := by
    simp [trim]
  rw [h2, dropWhile_dropWhile]
  rfl

lemma all_of_all_dropWhile (p : Char → Bool) (l : JStr)
    (h : ∀ c ∈ l.dropWhile p, p c = true) : ∀ c ∈ l, p c = true := by
  intro c hc
  rw [← List.takeWhile_append_dropWhile (p := p) (l := l)] at hc
  rcases List.mem_append.mp hc with h1 | h2
  · exact List.mem_takeWhile_imp h1
  · exact h c h2

lemma trim_eq_nil_iff (s : JStr) :
    trim s = [] ↔ ∀ c ∈ s, jsWhitespace c = true := by
  constructor
  · intro h
    have hb : (s.dropWhile jsWhitespace).reverse.dropWhile jsWhitespace = [] := by
      have h2 := congrArg List.reverse h
      simpa [trim] using h2
    have h2 : ∀ c ∈ (s.dropWhile jsWhitespace).reverse, jsWhitespace c = true := by
      intro c hc
      exact List.dropWhile_eq_nil_iff.mp hb c hc
    exact all_of_all_dropWhile _ _
      (fun c hc => h2 c (List.mem_reverse.mpr hc))
  · intro h
    have h1 : s.dropWhile jsWhitespace = [] :=
      List.dropWhile_eq_nil_iff.mpr (fun c hc => h c hc)
    simp [trim, h1]

lemma map_eq_self_of (l : List JStr) (f : JStr → JStr)
    (h : ∀ a ∈ l, f a = a) : l.map f = l := by
  induction l with
  | nil => rfl
  | cons a t ih =>
    simp only [List.map_cons, h a (by simp),
      ih (fun x hx => h x (by simp [hx]))]

lemma normStrList_idem (l : List JStr) :
    normStrList (normStrList l) = normStrList l := by
  have hmem : ∀ x ∈ normStrList l, trim x = x ∧ x.isEmpty = false := by
    intro x hx
    rcases List.mem_filter.mp hx with ⟨hx1, hx2⟩
    rcases List.mem_map.mp hx1 with ⟨y, hy, rfl⟩
    exact ⟨trim_idem y, by simpa using hx2⟩
  show ((normStrList l).map trim).filter (fun entry => !entry.isEmpty) = normStrList l
  rw [map_eq_self_of _ _ (fun a ha => (hmem a ha).1)]
  exact List.filter_eq_self.mpr (fun a ha => by simp [(hmem a ha).2])

lemma normalizeTone_idem (t : JStr) :
    normalizeTone (normalizeTone t) = normalizeTone t := by
  by_cases h : (trim t).isEmpty = true
  · have h1 : normalizeTone t = "balanced".toList := by simp [normalizeTone, h]
    rw [h1]
    decide
  · have h1 : normalizeTone t = trim t := by simp [normalizeTone, h]
    rw [h1]
    simp [normalizeTone, trim_idem, h]

lemma round10_idem (x : ℚ) : round10 (round10 x) = round10 x := by
  unfold round10
  set k : ℤ := ⌊x * 10 + 1 / 2⌋ with hk
  have h1 : ((k : ℚ)) / 10 * 10 + 1 / 2 = (k : ℚ) + 1 / 2 := by
    field_simp
  rw [h1]
  have h2 : ⌊((k : ℚ)) + 1 / 2⌋ = k := by
    rw [Int.floor_int_add]
    have h3 : ⌊(1 / 2 : ℚ)⌋ = 0 := by with_unfolding_all decide
    rw [h3, add_zero]
  rw [h2]

lemma trim_ne_nil (s : JStr) (h : s.all jsWhitespace = false) :
    trim s ≠ [] := by
  intro hnil
  rcases List.all_eq_false.mp h with ⟨c, hc, hpc⟩
  have h2 := (trim_eq_nil_iff s).mp hnil c hc
  rw [h2] at hpc
  simp at hpc

/-! Extraction lemmas for the validator checks. -/

lemma validRec_bounds (y : ℤ) (r : Recommendation) (h : validRec y r = true) :
    1 ≤ r.title.length ∧ 1 ≤ r.synopsis.length ∧ 1 ≤ r.whyItMadeTheList.length
    ∧ r.whyItMadeTheList.length ≤ 400
    ∧ (1950 : ℚ) ≤ r.metadata.year ∧ r.metadata.year ≤ ((y + 1 : ℤ) : ℚ)
    ∧ (0 : ℚ) ≤ r.metadata.rating ∧ r.metadata.rating ≤ (10 : ℚ) := by
  rw [validRec] at h
  simp only [Bool.and_eq_true, decide_eq_true_eq] at h
  tauto

lemma schemaOk_spec (y : ℤ) (payload : RawPayload) (c : Nat)
    (h : schemaOk y payload c = true) :
    1 ≤ payload.recommendations.length
    ∧ payload.recommendations.length ≤ c
    ∧ ∀ r ∈ payload.recommendations, validRec y r = true := by
  rw [schemaOk] at h
  simp only [Bool.and_eq_true, decide_eq_true_eq, List.all_eq_true] at h
  exact ⟨h.1.1, h.1.2, fun r hr => h.2 r hr⟩

lemma parse_ok_elim (y : ℤ) (payload : RawPayload) (c : Nat)
    (recs : List Recommendation)
    (h : parseLlmRecommendations y payload c = .ok recs) :
    schemaOk y payload c = true
    ∧ recs = payload.recommendations.map normalizeRec := by
  by_cases hok : schemaOk y payload c = true
  · rw [parseLlmRecommendations, if_pos hok] at h
    exact ⟨hok, (Except.ok.inj h).symm⟩
  · rw [parseLlmRecommendations, if_neg hok] at h
    simp at h

/-- C5: the per-recommendation normalisation step (trim every string,
drop post-trim empty list entries, round the rating to one decimal,
substitute balanced for a blank tone) is idempotent: applying it twice
gives the same Recommendation as applying it once. -/
theorem c5_normalization_idempotent (r : Recommendation) :
    normalizeRec (normalizeRec r) = normalizeRec r := by
  unfold normalizeRec
  simp [trim_idem, normStrList_idem, normalizeTone_idem, round10_idem]

/-- C6: the filter normaliser is a total function returning none when
the input is absent, empty, or whitespace-only, and otherwise the
trimmed, lower-cased input; being a plain Lean function it cannot fail
and performs no input or output. -/
theorem c6_normalize_total (s : JStr) :
    normalize none = none
    ∧ (s.all jsWhitespace = true → normalize (some s) = none)
    ∧ (s.all jsWhitespace = false →
        normalize (some s) = some ((trim s).map Char.toLower)) := by
  refine ⟨rfl, ?_, ?_⟩
  · intro h
    by_cases he : s.isEmpty
    · simp [normalize, he]
    · have ht : trim s = [] := by
        rw [trim_eq_nil_iff]
        intro c hc
        exact (List.all_eq_true.mp h) c hc
      simp [normalize, he, ht]
  · intro h
    have hs : s.isEmpty = false := by
      rcases List.all_eq_false.mp h with ⟨c, hc, _⟩
      cases s with
      | nil => simp at hc
      | cons a t => simp
    have ht := trim_ne_nil s h
    have hclean : ((trim s).map Char.toLower).isEmpty = false := by
      cases hh : trim s with
      | nil => exact absurd hh ht
      | cons a t => simp [hh]
    simp [normalize, hs, hclean]

/-- Witness for C6 at concrete inputs: a padded mixed-case string is
trimmed and lower-cased, while a whitespace-only and an absent input
give none. -/
theorem c6_normalize_total_witness :
    normalize none = none
    ∧ normalize (some ("  ".toList)) = none
    ∧ normalize (some (" Sci-Fi ".toList))
        = some ((trim (" Sci-Fi ".toList)).map Char.toLower) :=
  ⟨(c6_normalize_total ([] : JStr)).1,
   (c6_normalize_total ("  ".toList)).2.1 (by decide),
   (c6_normalize_total (" Sci-Fi ".toList)).2.2 (by decide)⟩

/-- C7: when the request omits numberOfRecommendations, the effective
count is the configured baseline clamped into [1,10], and that same
value is the one the handler hands to the prompt builder, the validator
bound and the truncation. -/
theorem c7_default_count (input : RecommendInput) (defaultCount : Nat)
    (currentYear : ℤ) (payload : RawPayload) (usageEntry : Option UsageEntry)
    (h : input.numberOfRecommendations = none) :
    effectiveCount input defaultCount = clamp defaultCount 1 10
    ∧ handler input defaultCount currentYear payload usageEntry
        = handlerCore (clamp defaultCount 1 10) (filtersOf input)
            currentYear payload usageEntry
    ∧ handlerPrompt input defaultCount
        = buildRecommendationPrompt (filtersOf input) (clamp defaultCount 1 10)
    ∧ 1 ≤ clamp defaultCount 1 10 ∧ clamp defaultCount 1 10 ≤ 10 := by
  have he : effectiveCount input defaultCount = clamp defaultCount 1 10 := by
    simp [effectiveCount, h]
  refine ⟨he, ?_, ?_, ?_, ?_⟩
  · rw [handler, he]
  · rw [handlerPrompt, he]
  · unfold clamp
    omega
  · unfold clamp
    omega

/-- Witness for C7: a request omitting the count, with baseline 5. -/
theorem c7_default_count_witness :
    effectiveCount sampleInput 5 = clamp 5 1 10
    ∧ handler sampleInput 5 2025 samplePayload none
        = handlerCore (clamp 5 1 10) (filtersOf sampleInput) 2025 samplePayload none
    ∧ handlerPrompt sampleInput 5
        = buildRecommendationPrompt (filtersOf sampleInput) (clamp 5 1 10)
    ∧ 1 ≤ clamp 5 1 10 ∧ clamp 5 1 10 ≤ 10 :=
  c7_default_count sampleInput 5 2025 samplePayload none rfl

lemma parse_error_elim (y : ℤ) (payload : RawPayload) (c : Nat)
    (e : PipelineError)
    (h : parseLlmRecommendations y payload c = .error e) :
    e = .parseFailure := by
  by_cases hok : schemaOk y payload c = true
  · rw [parseLlmRecommendations, if_pos hok] at h
    simp at h
  · rw [parseLlmRecommendations, if_neg hok] at h
    exact (Except.error.inj h).symm

lemma parse_ok_ne_nil (y : ℤ) (payload : RawPayload) (c : Nat)
    (recs : List Recommendation)
    (h : parseLlmRecommendations y payload c = .ok recs) : recs ≠ [] := by
  obtain ⟨hok, rfl⟩ := parse_ok_elim _ _ _ _ h
  have h1 := (schemaOk_spec _ _ _ hok).1
  intro hnil
  rw [List.map_eq_nil_iff] at hnil
  rw [hnil] at h1
  simp at h1

lemma handlerCore_ok_elim (recommendationCount : Nat)
    (filters : NormalisedFilters) (currentYear : ℤ) (payload : RawPayload)
    (usageEntry : Option UsageEntry) (recs : List Recommendation)
    (env : ResponseEnvelope)
    (hparse : parseLlmRecommendations currentYear payload recommendationCount
        = .ok recs)
    (henv : handlerCore recommendationCount filters currentYear payload usageEntry
        = .ok env) :
    env = { recommendations := recs.take recommendationCount
            totalMatches := recs.length
            filtersApplied := filters
            fallbackApplied := false
            model := usageEntry.bind (fun u => u.model)
            usage_total_tokens := recs.length } := by
  have henv2 : (if recs.length = 0
      then (.error .emptyResult : Except PipelineError ResponseEnvelope)
      else .ok { recommendations := recs.take recommendationCount
                 totalMatches := recs.length
                 filtersApplied := filters
                 fallbackApplied := false
                 model := usageEntry.bind (fun u => u.model)
                 usage_total_tokens := recs.length }) = .ok env := by
    rw [← henv]
    unfold handlerCore
    rw [hparse]
  have hz : ¬ (recs.length = 0) := by
    have := parse_ok_ne_nil _ _ _ _ hparse
    simpa [List.length_eq_zero] using this
  rw [if_neg hz] at henv2
  exact (Except.ok.inj henv2).symm

lemma emptyResult_unreachable (recommendationCount : Nat)
    (filters : NormalisedFilters) (currentYear : ℤ) (payload : RawPayload)
    (usageEntry : Option UsageEntry) :
    handlerCore recommendationCount filters currentYear payload usageEntry
      ≠ .error .emptyResult := by
  intro h
  cases hp : parseLlmRecommendations currentYear payload recommendationCount with
  | error e =>
    have he := parse_error_elim _ _ _ _ hp
    unfold handlerCore at h
    rw [hp] at h
    rw [he] at h
    simp at h
  | ok recs =>
    have hz : ¬ (recs.length = 0) := by
      have h2 := parse_ok_ne_nil _ _ _ _ hp
      simpa [List.length_eq_zero] using h2
    unfold handlerCore at h
    rw [hp] at h
    simp [hz] at h

/-- C1 evidence: on the reply the prompt documents as the escape hatch
(a recommendations array with zero elements) the pipeline fails with
the generic parse failure thrown at agent.ts line 369, because the zod
schema requires at least one element; the distinct empty-result error
of line 239 is not the failure produced. -/
theorem c1_empty_reply_parse_failure :
    parseLlmRecommendations 2025 emptyPayload 5 = .error .parseFailure
    ∧ handlerCore 5 sampleFilters 2025 emptyPayload none = .error .parseFailure
    ∧ handlerCore 5 sampleFilters 2025 emptyPayload none
        ≠ .error .emptyResult := by
  refine ⟨by decide, by decide, by decide⟩

/-- Counterexample to C2 as stated: a title consisting of one space has
length 1 and passes the schema, the batch is returned successfully, and
the title of the returned element is empty after trimming. -/
theorem c2_counterexample :
    parseLlmRecommendations 2025 wsTitlePayload 5 = .ok [normalizeRec wsTitleRec]
    ∧ (normalizeRec wsTitleRec).title = [] := by
  constructor
  · with_unfolding_all decide
  · with_unfolding_all decide

/-- C2 amended: every element of a successfully returned sequence
carries the trimmed value of a raw field that was non-empty before
trimming, and the field is non-empty after trimming whenever the raw
value held at least one non-whitespace character; a whitespace-only raw
value yields an empty post-trim string. -/
theorem c2_trimmed_fields (y : ℤ) (payload : RawPayload) (c : Nat)
    (recs : List Recommendation)
    (h : parseLlmRecommendations y payload c = .ok recs) :
    ∀ r ∈ recs, ∃ raw ∈ payload.recommendations,
      r = normalizeRec raw
      ∧ 1 ≤ raw.title.length ∧ 1 ≤ raw.synopsis.length
      ∧ 1 ≤ raw.whyItMadeTheList.length
      ∧ r.title = trim raw.title
      ∧ r.synopsis = trim raw.synopsis
      ∧ r.whyItMadeTheList = trim raw.whyItMadeTheList
      ∧ (raw.title.all jsWhitespace = false → r.title ≠ [])
      ∧ (raw.synopsis.all jsWhitespace = false → r.synopsis ≠ [])
      ∧ (raw.whyItMadeTheList.all jsWhitespace = false
          → r.whyItMadeTheList ≠ []) := by
  obtain ⟨hok, rfl⟩ := parse_ok_elim _ _ _ _ h
  intro r hr
  rcases List.mem_map.mp hr with ⟨raw, hrawmem, rfl⟩
  have hb := validRec_bounds _ _ ((schemaOk_spec _ _ _ hok).2.2 raw hrawmem)
  refine ⟨raw, hrawmem, rfl, hb.1, hb.2.1, hb.2.2.1, rfl, rfl, rfl, ?_, ?_, ?_⟩
  · intro hall
    show trim raw.title ≠ []
    exact trim_ne_nil _ hall
  · intro hall
    show trim raw.synopsis ≠ []
    exact trim_ne_nil _ hall
  · intro hall
    show trim raw.whyItMadeTheList ≠ []
    exact trim_ne_nil _ hall

/-- Witness for the amended C2 on the sample payload: the returned
fields are the trims of the non-empty raw fields and stay non-empty. -/
theorem c2_trimmed_fields_witness :
    normalizeRec sampleRec = normalizeRec sampleRec
    ∧ 1 ≤ sampleRec.title.length ∧ 1 ≤ sampleRec.synopsis.length
    ∧ 1 ≤ sampleRec.whyItMadeTheList.length
    ∧ (normalizeRec sampleRec).title = trim sampleRec.title
    ∧ (normalizeRec sampleRec).synopsis = trim sampleRec.synopsis
    ∧ (normalizeRec sampleRec).whyItMadeTheList = trim sampleRec.whyItMadeTheList
    ∧ (normalizeRec sampleRec).title ≠ []
    ∧ (normalizeRec sampleRec).synopsis ≠ []
    ∧ (normalizeRec sampleRec).whyItMadeTheList ≠ [] := by
  have hx := c2_trimmed_fields 2025 samplePayload 3
    (samplePayload.recommendations.map normalizeRec)
    (by with_unfolding_all decide) (normalizeRec sampleRec)
    (by with_unfolding_all decide)
  rcases hx with ⟨raw, hmem, hprops⟩
  have hraweq : raw = sampleRec := by
    have h2 : raw ∈ [sampleRec] := by simpa [samplePayload] using hmem
    simpa using h2
  subst hraweq
  exact ⟨hprops.1, hprops.2.1, hprops.2.2.1, hprops.2.2.2.1,
    hprops.2.2.2.2.1, hprops.2.2.2.2.2.1, hprops.2.2.2.2.2.2.1,
    hprops.2.2.2.2.2.2.2.1 (by decide),
    hprops.2.2.2.2.2.2.2.2.1 (by decide),
    hprops.2.2.2.2.2.2.2.2.2 (by decide)⟩

/-- C3: for every decoded reply and requested count in [1,10], the
validator rejects the whole batch, returning no element, whenever some
metadata.year lies outside [1950, currentYear+1], some rating lies
outside [0,10], or the recommendations array is empty or longer than
the requested count. -/
theorem c3_validator_rejects (payload : RawPayload) (c : Nat) (y : ℤ)
    (hc1 : 1 ≤ c) (hc2 : c ≤ 10)
    (h : (∃ r ∈ payload.recommendations,
            r.metadata.year < (1950 : ℚ) ∨ ((y + 1 : ℤ) : ℚ) < r.metadata.year)
       ∨ (∃ r ∈ payload.recommendations,
            r.metadata.rating < (0 : ℚ) ∨ (10 : ℚ) < r.metadata.rating)
       ∨ payload.recommendations = []
       ∨ c < payload.recommendations.length) :
    parseLlmRecommendations y payload c = .error .parseFailure := by
  have hno : ¬ (schemaOk y payload c = true) := by
    intro hok
    obtain ⟨h1, h2, h3⟩ := schemaOk_spec _ _ _ hok
    rcases h with ⟨r, hr, hv⟩ | ⟨r, hr, hv⟩ | hempty | hlong
    · have hb := validRec_bounds _ _ (h3 r hr)
      rcases hv with hv | hv
      · linarith [hb.2.2.2.2.1]
      · linarith [hb.2.2.2.2.2.1]
    · have hb := validRec_bounds _ _ (h3 r hr)
      rcases hv with hv | hv
      · linarith [hb.2.2.2.2.2.2.1]
      · linarith [hb.2.2.2.2.2.2.2]
    · rw [hempty] at h1
      simp at h1
    · omega
  rw [parseLlmRecommendations, if_neg hno]

/-- Witness for C3: a reply whose single element has year 1949 is
rejected with the parse failure at count 5. -/
theorem c3_validator_rejects_witness :
    (1 ≤ 5 ∧ (5 : Nat) ≤ 10)
    ∧ badYearRec.metadata.year < (1950 : ℚ)
    ∧ parseLlmRecommendations 2025 badYearPayload 5 = .error .parseFailure :=
  ⟨⟨by decide, by decide⟩, by with_unfolding_all decide,
   c3_validator_rejects badYearPayload 5 2025 (by decide) (by decide)
     (Or.inl ⟨badYearRec, by decide, Or.inl (by with_unfolding_all decide)⟩)⟩

/-- C4: when validation succeeds, the envelope holds exactly the first
min(M, N) validated recommendations in their original order, never
padded, and totalMatches is the pre-truncation count M. -/
theorem c4_truncation_law (recommendationCount : Nat)
    (filters : NormalisedFilters) (currentYear : ℤ) (payload : RawPayload)
    (usageEntry : Option UsageEntry) (recs : List Recommendation)
    (env : ResponseEnvelope)
    (hparse : parseLlmRecommendations currentYear payload recommendationCount
        = .ok recs)
    (henv : handlerCore recommendationCount filters currentYear payload usageEntry
        = .ok env) :
    env.recommendations = recs.take recommendationCount
    ∧ env.recommendations.length = min recs.length recommendationCount
    ∧ (∀ i (h1 : i < env.recommendations.length) (h2 : i < recs.length),
        env.recommendations.get ⟨i, h1⟩ = recs.get ⟨i, h2⟩)
    ∧ env.totalMatches = recs.length := by
  obtain rfl := handlerCore_ok_elim recommendationCount filters currentYear
    payload usageEntry recs env hparse henv
  refine ⟨rfl, ?_, ?_, rfl⟩
  · show (recs.take recommendationCount).length = min recs.length recommendationCount
    rw [List.length_take]
    omega
  · intro i h1 h2
    show (recs.take recommendationCount).get ⟨i, h1⟩ = recs.get ⟨i, h2⟩
    simp [List.getElem_take]

/-- Witness for C4 on the sample payload with requested count 3. -/
theorem c4_truncation_law_witness :
    parseLlmRecommendations 2025 samplePayload 3 = .ok sampleRecs
    ∧ handlerCore 3 sampleFilters 2025 samplePayload none = .ok sampleEnv
    ∧ sampleEnv.recommendations = sampleRecs.take 3
    ∧ sampleEnv.recommendations.length = min sampleRecs.length 3
    ∧ sampleEnv.totalMatches = sampleRecs.length := by
  have hp : parseLlmRecommendations 2025 samplePayload 3 = .ok sampleRecs := by
    with_unfolding_all decide
  have hh : handlerCore 3 sampleFilters 2025 samplePayload none = .ok sampleEnv := by
    with_unfolding_all decide
  have hc := c4_truncation_law 3 sampleFilters 2025 samplePayload none
    sampleRecs sampleEnv hp hh
  exact ⟨hp, hh, hc.1, hc.2.1, hc.2.2.2⟩

/-- C9: in every successful envelope the total_tokens of the usage
object equals the validator count before truncation, the same value as
totalMatches, independent of the usage entry the gateway reported. -/
theorem c9_usage_total_tokens (recommendationCount : Nat)
    (filters : NormalisedFilters) (currentYear : ℤ) (payload : RawPayload)
    (u1 u2 : Option UsageEntry) (recs : List Recommendation)
    (env1 env2 : ResponseEnvelope)
    (hparse : parseLlmRecommendations currentYear payload recommendationCount
        = .ok recs)
    (h1 : handlerCore recommendationCount filters currentYear payload u1 = .ok env1)
    (h2 : handlerCore recommendationCount filters currentYear payload u2 = .ok env2) :
    env1.usage_total_tokens = recs.length
    ∧ env1.usage_total_tokens = env1.totalMatches
    ∧ env2.usage_total_tokens = env1.usage_total_tokens := by
  obtain rfl := handlerCore_ok_elim recommendationCount filters currentYear
    payload u1 recs env1 hparse h1
  obtain rfl := handlerCore_ok_elim recommendationCount filters currentYear
    payload u2 recs env2 hparse h2
  exact ⟨rfl, rfl, rfl⟩

/-- Witness for C9: the sample run with no usage entry and with a usage
entry reporting 9999 tokens agree on usage total_tokens, which equals
the validator count. -/
theorem c9_usage_total_tokens_witness :
    sampleEnv.usage_total_tokens = sampleRecs.length
    ∧ sampleEnv.usage_total_tokens = sampleEnv.totalMatches
    ∧ sampleEnv2.usage_total_tokens = sampleEnv.usage_total_tokens :=
  c9_usage_total_tokens 3 sampleFilters 2025 samplePayload none
    (some sampleUsage) sampleRecs sampleEnv sampleEnv2
    (by with_unfolding_all decide) (by with_unfolding_all decide)
    (by with_unfolding_all decide)

/-- C10: any decoded reply holding a recommendation whose
whyItMadeTheList field exceeds 400 characters before trimming is
rejected wholesale with the parse failure error; no element of such a
batch is returned. -/
theorem c10_long_explanation_rejected (payload : RawPayload) (c : Nat)
    (y : ℤ)
    (h : ∃ r ∈ payload.recommendations, 400 < r.whyItMadeTheList.length) :
    parseLlmRecommendations y payload c = .error .parseFailure := by
  have hno : ¬ (schemaOk y payload c = true) := by
    intro hok
    obtain ⟨h1, h2, h3⟩ := schemaOk_spec _ _ _ hok
    rcases h with ⟨r, hr, hv⟩
    have hb := (validRec_bounds _ _ (h3 r hr)).2.2.2.1
    omega
  rw [parseLlmRecommendations, if_neg hno]

/-- Witness for C10: a 401 character explanation is rejected. -/
theorem c10_long_explanation_rejected_witness :
    400 < longWhyRec.whyItMadeTheList.length
    ∧ parseLlmRecommendations 2025 longWhyPayload 5 = .error .parseFailure :=
  ⟨by decide,
   c10_long_explanation_rejected longWhyPayload 5 2025
     ⟨longWhyRec, by decide, by decide⟩⟩

/-! Expansion of the prompt builder into plain list appends. -/

lemma filterSummary_expand (f : NormalisedFilters) :
    filterSummary f =
      ("genre: ".toList ++ f.genre.getD ("any".toList))
      ++ (", ".toList
      ++ (("mood: ".toList ++ f.mood.getD ("any".toList))
      ++ (", ".toList
      ++ (("platform: ".toList ++ f.platform.getD ("any".toList))
      ++ (", ".toList
      ++ (("includeClassics: ".toList ++ (toString f.includeClassics).toList)
          ++ ([] : JStr))))))) := rfl

lemma buildPrompt_expand (f : NormalisedFilters) (c : Nat) :
    buildRecommendationPrompt f c =
      "You are an expert TV curator helping a viewer.".toList
      ++ ("\n\n".toList
      ++ (("Filters to respect (normalised): ".toList ++ filterSummary f ++ ".".toList)
      ++ ("\n\n".toList
      ++ (("Return exactly ".toList ++ (toString c).toList
            ++ " compelling TV recommendations when possible (never exceed this number).".toList)
      ++ ("\n\n".toList
      ++ ("Recommendations must be current (no obvious errors) and feel hand-picked for the viewer.".toList
      ++ ("\n\n".toList
      ++ ("For each title include platforms, relevant genres/moods, and a short \x27why it made the list\x27 blurb.".toList
      ++ ("\n\n".toList
      ++ ("Keep explanations concise (<= 2 sentences) and connect them directly to the viewer\x27s filters.".toList
      ++ ("\n\n".toList
      ++ ("Your reply MUST be JSON that matches this TypeScript shape exactly:".toList
      ++ ("\n\n".toList
      ++ (schemaPreviewJson
      ++ ("\n\n".toList
      ++ ("If you truly cannot form any recommendation, respond with \x7b\"recommendations\": []\x7d.".toList
      ++ ("\n\n".toList
      ++ ("Return JSON only with no additional commentary.".toList
          ++ ([] : JStr))))))))))))))))))) := rfl

lemma isInfix_append_left (x m t : JStr) (h : List.IsInfix x m) :
    List.IsInfix x (m ++ t) :=
  h.trans (List.prefix_append m t).isInfix

lemma isInfix_append_right (x l m : JStr) (h : List.IsInfix x m) :
    List.IsInfix x (l ++ m) :=
  h.trans (List.suffix_append l m).isInfix

lemma genre_any_in_summary (f : NormalisedFilters) (hg : f.genre = none) :
    List.IsInfix ("genre: any".toList) (filterSummary f) := by
  rw [filterSummary_expand, hg]
  apply isInfix_append_left
  have h0 : ("genre: any".toList : JStr)
      = "genre: ".toList ++ (Option.getD none ("any".toList)) := by decide
  rw [← h0]

lemma mood_any_in_summary (f : NormalisedFilters) (hm : f.mood = none) :
    List.IsInfix ("mood: any".toList) (filterSummary f) := by
  rw [filterSummary_expand, hm]
  apply isInfix_append_right
  apply isInfix_append_right
  apply isInfix_append_left
  have h0 : ("mood: any".toList : JStr)
      = "mood: ".toList ++ (Option.getD none ("any".toList)) := by decide
  rw [← h0]

lemma platform_any_in_summary (f : NormalisedFilters) (hp : f.platform = none) :
    List.IsInfix ("platform: any".toList) (filterSummary f) := by
  rw [filterSummary_expand, hp]
  apply isInfix_append_right
  apply isInfix_append_right
  apply isInfix_append_right
  apply isInfix_append_right
  apply isInfix_append_left
  have h0 : ("platform: any".toList : JStr)
      = "platform: ".toList ++ (Option.getD none ("any".toList)) := by decide
  rw [← h0]

lemma any_infix_prompt (f : NormalisedFilters) (c : Nat) (x : JStr)
    (h : List.IsInfix x (filterSummary f)) :
    List.IsInfix x (buildRecommendationPrompt f c) := by
  rw [buildPrompt_expand]
  apply isInfix_append_right
  apply isInfix_append_right
  apply isInfix_append_left
  apply isInfix_append_left
  apply isInfix_append_right
  exact h

/-- C8: the prompt builder is a pure function: equal filters and equal
count give byte-identical prompt strings, and the literal any is
rendered into the prompt for each null filter. -/
theorem c8_prompt_pure_any (f : NormalisedFilters) (c : Nat) :
    (∀ f2 c2, f = f2 → c = c2 →
        buildRecommendationPrompt f c = buildRecommendationPrompt f2 c2)
    ∧ (f.genre = none →
        List.IsInfix ("genre: any".toList) (buildRecommendationPrompt f c))
    ∧ (f.mood = none →
        List.IsInfix ("mood: any".toList) (buildRecommendationPrompt f c))
    ∧ (f.platform = none →
        List.IsInfix ("platform: any".toList) (buildRecommendationPrompt f c)) := by
  refine ⟨?_, ?_, ?_, ?_⟩
  · intro f2 c2 hf hc
    rw [hf, hc]
  · intro hg
    exact any_infix_prompt f c _ (genre_any_in_summary f hg)
  · intro hm
    exact any_infix_prompt f c _ (mood_any_in_summary f hm)
  · intro hp
    exact any_infix_prompt f c _ (platform_any_in_summary f hp)

/-- Witness for C8: with all three filters null and count 4, each null
filter is rendered as the literal any, and the builder is trivially
deterministic at this input. -/
theorem c8_prompt_pure_any_witness :
    List.IsInfix ("genre: any".toList)
      (buildRecommendationPrompt ⟨none, none, none, true⟩ 4)
    ∧ List.IsInfix ("mood: any".toList)
      (buildRecommendationPrompt ⟨none, none, none, true⟩ 4)
    ∧ List.IsInfix ("platform: any".toList)
      (buildRecommendationPrompt ⟨none, none, none, true⟩ 4)
    ∧ buildRecommendationPrompt ⟨none, none, none, true⟩ 4
        = buildRecommendationPrompt ⟨none, none, none, true⟩ 4 :=
  ⟨(c8_prompt_pure_any ⟨none, none, none, true⟩ 4).2.1 rfl,
   (c8_prompt_pure_any ⟨none, none, none, true⟩ 4).2.2.1 rfl,
   (c8_prompt_pure_any ⟨none, none, none, true⟩ 4).2.2.2 rfl,
   (c8_prompt_pure_any ⟨none, none, none, true⟩ 4).1 _ _ rfl rfl⟩

end TvShowReco
